import Mathlib

/-!
Verification development for the cri-lite CRI proxy.

Shallow embedding of the policy-enforcement pipeline:
  * gRPC status codes and Go errors (`GrpcCode`, `GoError`);
  * the CRI data shapes used by the policies (containers, filters,
    list requests, pod-sandbox stats);
  * the three policies (ReadOnly, ImageManagement, PodScoped) as unary
    interceptors over an explicit environment (`Env`) that models the
    peer identity, the `/proc/<pid>/cgroup` files and the upstream
    runtime's `ListContainers`;
  * the proxy handler for `RunPodSandbox`;
  * the peer-credential transport handshake.

Each definition is translated from the corresponding Go function and
keeps its name.  Fallible Go code returns `Except GoError`.  A Go `nil`
pointer is an `Option` `none`; protobuf string fields default to `""`.
-/

deriving instance DecidableEq for Except

namespace CriLite

/-- gRPC status codes used by cri-lite. -/
inductive GrpcCode where
  | invalidArgument
  | permissionDenied
  | internal
  | unknown
deriving DecidableEq, Repr

/-- A Go error value: either a gRPC status error created with
`status.Errorf(code, msg)`, or a plain error created with `errors.New` /
`fmt.Errorf`. -/
inductive GoError where
  | statusErr : GrpcCode → String → GoError
  | plainErr : String → GoError
deriving DecidableEq, Repr

/-- The code a gRPC server reports for an error returned by a handler:
a status error keeps its code; any other error is surfaced as `Unknown`. -/
def grpcCodeOf : GoError → GrpcCode
  | .statusErr c _ => c
  | .plainErr _ => .unknown

def codeName : GrpcCode → String
  | .invalidArgument => "InvalidArgument"
  | .permissionDenied => "PermissionDenied"
  | .internal => "Internal"
  | .unknown => "Unknown"

/-- The string `%v` / `%w` formatting of a Go error: a status error prints
with the `rpc error: ...` wrapper, a plain error prints its message. -/
def renderErr : GoError → String
  | .statusErr c m => "rpc error: code = " ++ codeName c ++ " desc = " ++ m
  | .plainErr m => m

/-- `policy.ErrMethodNotAllowed`. -/
def errMethodNotAllowed : String := "method not allowed by policy"

/-- A CRI `Container` (the fields the policies read). -/
structure Container where
  id : String
  podSandboxId : String
deriving DecidableEq, Repr

/-- `runtimeapi.ContainerFilter` (the fields the policies read or write). -/
structure ContainerFilter where
  id : String
  podSandboxId : String
deriving DecidableEq, Repr

/-- `runtimeapi.ContainerStatsFilter`. -/
structure ContainerStatsFilter where
  id : String
  podSandboxId : String
deriving DecidableEq, Repr

/-- `runtimeapi.PodSandboxStatsFilter`. -/
structure PodSandboxStatsFilter where
  id : String
deriving DecidableEq, Repr

/-- `runtimeapi.ListContainersRequest`: the filter pointer may be nil. -/
structure ListContainersRequest where
  filter : Option ContainerFilter
deriving DecidableEq, Repr

/-- `runtimeapi.ListContainerStatsRequest`. -/
structure ListContainerStatsRequest where
  filter : Option ContainerStatsFilter
deriving DecidableEq, Repr

/-- `runtimeapi.ListPodSandboxStatsRequest`. -/
structure ListPodSandboxStatsRequest where
  filter : Option PodSandboxStatsFilter
deriving DecidableEq, Repr

/-- `runtimeapi.PodSandboxAttributes` (the field read by the spec). -/
structure PodSandboxAttributes where
  id : String
deriving DecidableEq, Repr

/-- `runtimeapi.PodSandboxStats`: the attributes pointer may be nil. -/
structure PodSandboxStats where
  attributes : Option PodSandboxAttributes
deriving DecidableEq, Repr

/-- The decoded CRI requests dispatched on by `verifyRequest` (one
constructor per `case` of the Go type switch, with the identifying field),
plus the requests that reach the switch's `default` branch
(`exec`, `podSandboxStats`, `runPodSandbox`, `otherReq`):
the Go switch in `podscoped.go` has no `*runtimeapi.ExecRequest` and no
`*runtimeapi.PodSandboxStatsRequest` case. -/
inductive CRIRequest where
  | listContainers (r : ListContainersRequest)
  | listContainerStats (r : ListContainerStatsRequest)
  | listPodSandboxStats (r : ListPodSandboxStatsRequest)
  | createContainer (podSandboxId : String)
  | stopPodSandbox (podSandboxId : String)
  | removePodSandbox (podSandboxId : String)
  | podSandboxStatus (podSandboxId : String)
  | updatePodSandboxResources (podSandboxId : String)
  | startContainer (containerId : String)
  | stopContainer (containerId : String)
  | removeContainer (containerId : String)
  | containerStatus (containerId : String)
  | execSync (containerId : String)
  | exec (containerId : String)
  | attach (containerId : String)
  | portForward (podSandboxId : String)
  | updateContainerResources (containerId : String)
  | containerStats (containerId : String)
  | podSandboxStats (podSandboxId : String)
  | runPodSandbox
  | otherReq
deriving DecidableEq, Repr

/-- The decoded CRI responses the PodScoped interceptor inspects:
only `*runtimeapi.ListContainersResponse` is rewritten; every other
response shape passes through (`listPodSandboxStats` is kept separate
because claim C5 is about it). -/
inductive CRIResponse where
  | listContainers (containers : List Container)
  | listPodSandboxStats (stats : List PodSandboxStats)
  | otherResp
deriving DecidableEq, Repr

/-- The environment a call runs in:
  * `peer`: `none` if `peer.FromContext` fails; `some none` if the peer's
    `AuthInfo` does not implement `GetPID`; `some (some pid)` otherwise;
  * `proc`: the lines of `/proc/<pid>/cgroup`, `none` if the file cannot
    be opened;
  * `runtime`: the upstream runtime's `ListContainers` RPC, as a function
    of the request's `ContainerFilter`. -/
structure Env where
  peer : Option (Option Int)
  proc : Int → Option (List String)
  runtime : ContainerFilter → Except GoError (List Container)

/-- `policy.podScopedPolicy` configuration. -/
structure PodScopedPolicy where
  podSandboxID : String
  podSandboxFromCallerPID : Bool
deriving DecidableEq, Repr

/-- `strings.HasPrefix(s, p)` (argument order: the candidate prefix `p`
first, matching `List.isPrefixOf`). -/
def strStartsWith (p s : String) : Bool := p.data.isPrefixOf s.data

/-- `[0-9a-f]`: a lowercase hexadecimal character. -/
def isHexLower (c : Char) : Bool := c.isDigit || ('a' ≤ c && c ≤ 'f')

/-- The leftmost match of the regex `([0-9a-f]{64})` in a character list:
the first position at which 64 consecutive lowercase-hex characters
start. -/
def firstHex64 : List Char → Option (List Char)
  | [] => none
  | c :: tl =>
    if 64 ≤ (c :: tl).length ∧ ((c :: tl).take 64).all isHexLower = true then
      some ((c :: tl).take 64)
    else
      firstHex64 tl

/-- The container-id candidate the regex extracts from one cgroup line. -/
def lineContainerID (line : String) : Option String :=
  (firstHex64 line.data).map List.asString

/-- Scan the cgroup file's lines in file order; the first line with a
64-hex substring yields the candidate (`podscoped.go` scanner loop). -/
def firstContainerID : List String → Option String
  | [] => none
  | l :: ls =>
    match lineContainerID l with
    | some cid => some cid
    | none => firstContainerID ls

/-- `podScopedPolicy.getPodSandboxIDFromContainerID`: a `ListContainers`
query filtered by container id; exactly one container must come back. -/
def getPodSandboxIDFromContainerID (env : Env) (containerID : String) :
    Except GoError String :=
  match env.runtime { id := containerID, podSandboxId := "" } with
  | .error e => .error (.plainErr ("failed to list containers: " ++ renderErr e))
  | .ok cs =>
    match cs with
    | [c] => .ok c.podSandboxId
    | cs2 =>
      .error (.plainErr ("unexpected number of containers: expected 1, got "
        ++ toString cs2.length))

/-- `podScopedPolicy.getPodSandboxIDFromPID`: read `/proc/<pid>/cgroup`,
extract the first container-id candidate, resolve it upstream. -/
def getPodSandboxIDFromPID (env : Env) (pid : Int) : Except GoError String :=
  match env.proc pid with
  | none => .error (.plainErr "failed to open cgroup file")
  | some lines =>
    match firstContainerID lines with
    | some cid => getPodSandboxIDFromContainerID env cid
    | none => .error (.plainErr ("failed to find container ID for pid " ++ toString pid))

/-- `podScopedPolicy.verifyContainerPodSandboxID`. -/
def verifyContainerPodSandboxID (env : Env) (containerID expectedPodSandboxID : String) :
    Except GoError Unit :=
  match getPodSandboxIDFromContainerID env containerID with
  | .error e =>
    .error (.plainErr ("failed to get pod sandbox ID from container ID: " ++ renderErr e))
  | .ok podSandboxID =>
    if podSandboxID ≠ expectedPodSandboxID then
      .error (.statusErr .permissionDenied (errMethodNotAllowed ++ ": container "
        ++ containerID ++ " does not belong to pod sandbox " ++ expectedPodSandboxID))
    else
      .ok ()

/-- `podScopedPolicy.verifyPodSandboxIDMatch`. -/
def verifyPodSandboxIDMatch (requestedPodSandboxID expectedPodSandboxID methodName : String) :
    Except GoError Unit :=
  if requestedPodSandboxID ≠ expectedPodSandboxID then
    .error (.statusErr .permissionDenied (errMethodNotAllowed ++ ": "
      ++ methodName ++ " does not match"))
  else
    .ok ()

/-- `podScopedPolicy.verifyContainerIDBelongsToPod`: any failure of the
container-to-pod check is wrapped into a permission-denied status. -/
def verifyContainerIDBelongsToPod (env : Env) (containerID expectedPodSandboxID : String) :
    Except GoError Unit :=
  match verifyContainerPodSandboxID env containerID expectedPodSandboxID with
  | .error e =>
    .error (.statusErr .permissionDenied (errMethodNotAllowed ++ ": " ++ renderErr e))
  | .ok () => .ok ()

/-- `podScopedPolicy.verifyListContainersRequest`: install or tighten the
filter's `PodSandboxId`; a present, non-empty, different value rejects.
The Go code mutates the request in place; here the rewritten request is
returned. -/
def verifyListContainersRequest (r : ListContainersRequest) (podSandboxID : String) :
    Except GoError ListContainersRequest :=
  match r.filter with
  | none => .ok { filter := some { id := "", podSandboxId := podSandboxID } }
  | some f =>
    if f.podSandboxId ≠ "" ∧ f.podSandboxId ≠ podSandboxID then
      .error (.statusErr .permissionDenied (errMethodNotAllowed
        ++ ": ListContainersRequest.Filter.PodSandboxId does not match"))
    else
      .ok { filter := some { f with podSandboxId := podSandboxID } }

/-- `podScopedPolicy.verifyListContainerStatsRequest`. -/
def verifyListContainerStatsRequest (r : ListContainerStatsRequest) (podSandboxID : String) :
    Except GoError ListContainerStatsRequest :=
  match r.filter with
  | none => .ok { filter := some { id := "", podSandboxId := podSandboxID } }
  | some f =>
    if f.podSandboxId ≠ "" ∧ f.podSandboxId ≠ podSandboxID then
      .error (.statusErr .permissionDenied (errMethodNotAllowed
        ++ ": ListContainerStatsRequest.Filter.PodSandboxId does not match"))
    else
      .ok { filter := some { f with podSandboxId := podSandboxID } }

/-- `podScopedPolicy.verifyListPodSandboxStatsRequest` (the sandbox field
of this filter is `Id`). -/
def verifyListPodSandboxStatsRequest (r : ListPodSandboxStatsRequest) (podSandboxID : String) :
    Except GoError ListPodSandboxStatsRequest :=
  match r.filter with
  | none => .ok { filter := some { id := podSandboxID } }
  | some f =>
    if f.id ≠ "" ∧ f.id ≠ podSandboxID then
      .error (.statusErr .permissionDenied (errMethodNotAllowed
        ++ ": ListPodSandboxStatsRequest.Filter.Id does not match"))
    else
      .ok { filter := some { f with id := podSandboxID } }

/-- `podScopedPolicy.verifyRequest`: the Go type switch.  The final
catch-all is the Go `default:` branch; it covers `exec`,
`podSandboxStats`, `runPodSandbox` and every other request, because the
Go switch has no case for them. -/
def verifyRequest (env : Env) (req : CRIRequest) (podSandboxID : String) :
    Except GoError CRIRequest :=
  match req with
  | .listContainers r => (verifyListContainersRequest r podSandboxID).map .listContainers
  | .listContainerStats r => (verifyListContainerStatsRequest r podSandboxID).map .listContainerStats
  | .listPodSandboxStats r => (verifyListPodSandboxStatsRequest r podSandboxID).map .listPodSandboxStats
  | .createContainer sid =>
    (verifyPodSandboxIDMatch sid podSandboxID "CreateContainerRequest.PodSandboxId").map
      (fun _ => req)
  | .stopPodSandbox sid =>
    (verifyPodSandboxIDMatch sid podSandboxID "StopPodSandboxRequest.PodSandboxId").map
      (fun _ => req)
  | .removePodSandbox sid =>
    (verifyPodSandboxIDMatch sid podSandboxID "RemovePodSandboxRequest.PodSandboxId").map
      (fun _ => req)
  | .podSandboxStatus sid =>
    (verifyPodSandboxIDMatch sid podSandboxID "PodSandboxStatusRequest.PodSandboxId").map
      (fun _ => req)
  | .updatePodSandboxResources sid =>
    (verifyPodSandboxIDMatch sid podSandboxID "UpdatePodSandboxResourcesRequest.PodSandboxId").map
      (fun _ => req)
  | .startContainer cid => (verifyContainerIDBelongsToPod env cid podSandboxID).map (fun _ => req)
  | .stopContainer cid => (verifyContainerIDBelongsToPod env cid podSandboxID).map (fun _ => req)
  | .removeContainer cid => (verifyContainerIDBelongsToPod env cid podSandboxID).map (fun _ => req)
  | .containerStatus cid => (verifyContainerIDBelongsToPod env cid podSandboxID).map (fun _ => req)
  | .execSync cid => (verifyContainerIDBelongsToPod env cid podSandboxID).map (fun _ => req)
  | .attach cid => (verifyContainerIDBelongsToPod env cid podSandboxID).map (fun _ => req)
  | .portForward sid => (verifyContainerIDBelongsToPod env sid podSandboxID).map (fun _ => req)
  | .updateContainerResources cid =>
    (verifyContainerIDBelongsToPod env cid podSandboxID).map (fun _ => req)
  | .containerStats cid => (verifyContainerIDBelongsToPod env cid podSandboxID).map (fun _ => req)
  | _ => .ok req

/-- The pod-sandbox-id resolution step at the top of the PodScoped
interceptor: the static id, or dynamic resolution from the peer PID
(errors mapped to `InvalidArgument` / `Internal` exactly as in the Go). -/
def resolvePodSandboxID (env : Env) (p : PodScopedPolicy) : Except GoError String :=
  if p.podSandboxFromCallerPID then
    match env.peer with
    | none => .error (.statusErr .invalidArgument "failed to get peer from context")
    | some none => .error (.statusErr .invalidArgument "failed to get auth info from context")
    | some (some pid) =>
      match getPodSandboxIDFromPID env pid with
      | .error e =>
        .error (.statusErr .internal ("failed to get pod sandbox ID from PID: " ++ renderErr e))
      | .ok s => .ok s
  else
    .ok p.podSandboxID

/-- The response rewrite at the bottom of the PodScoped interceptor:
only a `ListContainersResponse` is rewritten (keep containers of the
resolved sandbox, in order); every other response passes through. -/
def rewriteResponse (podSandboxID : String) : CRIResponse → CRIResponse
  | .listContainers cs => .listContainers (cs.filter (fun c => c.podSandboxId == podSandboxID))
  | r => r

/-- `podScopedPolicy.UnaryInterceptor` (podscoped.go): ImageService
methods are passed straight to the handler; non-RuntimeService methods
are rejected; otherwise resolve the sandbox id, verify/rewrite the
request, call the handler, rewrite the response.  (The logging wrapper
only adds a logger to the context and forwards results unchanged, so it
is dropped here.) -/
def podScopedUnaryInterceptor (env : Env) (p : PodScopedPolicy) (fullMethod : String)
    (req : CRIRequest) (handler : CRIRequest → Except GoError CRIResponse) :
    Except GoError CRIResponse :=
  if strStartsWith "/runtime.v1.ImageService/" fullMethod then
    handler req
  else if ¬ strStartsWith "/runtime.v1.RuntimeService/" fullMethod then
    .error (.statusErr .permissionDenied (errMethodNotAllowed ++ ": " ++ fullMethod))
  else
    match resolvePodSandboxID env p with
    | .error e => .error e
    | .ok podSandboxID =>
      match verifyRequest env req podSandboxID with
      | .error e => .error e
      | .ok req2 =>
        match handler req2 with
        | .error e => .error e
        | .ok resp => .ok (rewriteResponse podSandboxID resp)

/-- The ReadOnly policy's allowlist (readonly.go). -/
def readOnlyAllowedMethods : List String :=
  [ "/runtime.v1.RuntimeService/Version"
  , "/runtime.v1.RuntimeService/Status"
  , "/runtime.v1.RuntimeService/ListContainers"
  , "/runtime.v1.RuntimeService/ContainerStatus"
  , "/runtime.v1.RuntimeService/ListPodSandbox"
  , "/runtime.v1.RuntimeService/PodSandboxStatus"
  , "/runtime.v1.RuntimeService/ContainerStats"
  , "/runtime.v1.RuntimeService/ListContainerStats"
  , "/runtime.v1.RuntimeService/PodSandboxStats"
  , "/runtime.v1.RuntimeService/ListPodSandboxStats"
  , "/runtime.v1.ImageService/ListImages"
  , "/runtime.v1.ImageService/ImageStatus"
  , "/runtime.v1.ImageService/ImageFsInfo" ]

/-- `readOnlyPolicy.UnaryInterceptor`: forward allowlisted methods with
the request unmodified; reject everything else naming the method. -/
def readOnlyUnaryInterceptor (fullMethod : String) (req : CRIRequest)
    (handler : CRIRequest → Except GoError CRIResponse) : Except GoError CRIResponse :=
  if fullMethod ∈ readOnlyAllowedMethods then
    handler req
  else
    .error (.statusErr .permissionDenied (errMethodNotAllowed ++ ": " ++ fullMethod))

/-- `imageManagementPolicy.UnaryInterceptor`: `Version` and every
ImageService method pass; everything else is rejected. -/
def imageManagementUnaryInterceptor (fullMethod : String) (req : CRIRequest)
    (handler : CRIRequest → Except GoError CRIResponse) : Except GoError CRIResponse :=
  if fullMethod = "/runtime.v1.RuntimeService/Version" then
    handler req
  else if ¬ strStartsWith "/runtime.v1.ImageService/" fullMethod then
    .error (.statusErr .permissionDenied (errMethodNotAllowed ++ ": " ++ fullMethod))
  else
    handler req

/-- The configured policy of a listener. -/
inductive PolicyKind where
  | readOnly
  | imageManagement
  | podScoped (p : PodScopedPolicy)

/-- Dispatch a call through the listener's policy interceptor. -/
def applyPolicy (env : Env) (pol : PolicyKind) (fullMethod : String) (req : CRIRequest)
    (handler : CRIRequest → Except GoError CRIResponse) : Except GoError CRIResponse :=
  match pol with
  | .readOnly => readOnlyUnaryInterceptor fullMethod req handler
  | .imageManagement => imageManagementUnaryInterceptor fullMethod req handler
  | .podScoped p => podScopedUnaryInterceptor env p fullMethod req handler

/-- `proxy.Server.RunPodSandbox` (proxy.go): the handler ignores the
upstream client entirely and returns a plain error built with
`errors.New` — not a gRPC status error. -/
def serverRunPodSandbox (upstreamRunPodSandbox : CRIRequest → Except GoError CRIResponse) :
    CRIRequest → Except GoError CRIResponse :=
  fun _ => .error (.plainErr "RunPodSandbox is disabled by cri-lite for security reasons")

/-- The full method name of `RunPodSandbox`. -/
def runPodSandboxMethod : String := "/runtime.v1.RuntimeService/RunPodSandbox"

/-! ### Peer-credential transport (pkg/creds) -/

/-- The kernel peer credentials (`syscall.Ucred`). -/
structure Ucred where
  pid : Int
  uid : Nat
  gid : Nat
deriving DecidableEq, Repr

/-- An accepted connection: a UNIX stream socket (with the outcome of the
`SO_PEERCRED` query) or any other connection kind. -/
inductive NetConn where
  | unixConn (credResult : Except GoError Ucred)
  | tcpConn
deriving Repr

/-- `creds.getUcred`: a non-UNIX connection yields `nil, nil`; a UNIX
connection yields the kernel's answer or the syscall error. -/
def getUcred : NetConn → Except GoError (Option Ucred)
  | .unixConn (.ok c) => .ok (some c)
  | .unixConn (.error e) => .error e
  | .tcpConn => .ok none

/-- `creds.ucredAuthInfo`: wraps a (possibly nil) `*ucred`. -/
structure UcredAuthInfo where
  ucred : Option Ucred
deriving DecidableEq, Repr

/-- `ucredAuthInfo.GetPID`: dereferences `ai.ucred.pid`; on a nil `ucred`
the Go code panics with a nil-pointer dereference, modelled as `none`. -/
def UcredAuthInfo.getPID (ai : UcredAuthInfo) : Option Int :=
  ai.ucred.map (fun c => c.pid)

/-- `PIDCreds.ServerHandshake`: on success the connection's auth info is
`&ucredAuthInfo{ucred: ucred}` — also when `getUcred` returned `nil`. -/
def serverHandshake (conn : NetConn) : Except GoError (Option UcredAuthInfo) :=
  match getUcred conn with
  | .error e => .error e
  | .ok u => .ok (some { ucred := u })

end CriLite

namespace CriLite

/-! ## Concrete fixtures used by counterexamples and witnesses -/

/-- An environment with no peer, no readable cgroup files, and an
upstream runtime that lists no containers. -/
def env0 : Env := ⟨none, fun _ => none, fun _ => .ok []⟩

/-- An upstream runtime that knows one container `c2` living in pod
sandbox `other`. -/
def envC3 : Env := ⟨none, fun _ => none,
  fun f => if f.id = "c2" then .ok [⟨"c2", "other"⟩] else .ok []⟩

/-- A concrete upstream `RunPodSandbox` implementation. -/
def upstream0 : CRIRequest → Except GoError CRIResponse := fun _ => .ok .otherResp

/-- An upstream runtime that lists a container whose id happens to equal
the sandbox id `psid` and whose pod sandbox is `S1` (the only situation
in which `PortForward` is forwarded). -/
def envPF : Env := ⟨none, fun _ => none,
  fun f => if f.id = "psid" then .ok [⟨"psid", "S1"⟩] else .ok []⟩

/-- A pod-sandbox-stats list whose single element belongs to sandbox
`other`. -/
def statsOther : List PodSandboxStats := [⟨some ⟨"other"⟩⟩]

/-- A handler whose upstream ignores the tightened filter and returns
stats of a foreign sandbox. -/
def handlerC5 : CRIRequest → Except GoError CRIResponse :=
  fun _ => .ok (.listPodSandboxStats statsOther)

/-- An upstream container listing with one container in sandbox `s` and
one in sandbox `t`. -/
def containersC6 : List Container := [⟨"c1", "s"⟩, ⟨"c2", "t"⟩]

/-- A handler whose upstream ignores the tightened filter and returns
containers of two different sandboxes. -/
def handlerC6 : CRIRequest → Except GoError CRIResponse :=
  fun _ => .ok (.listContainers containersC6)

/-- A 64-character lowercase-hex container id. -/
def hex64W : String :=
  "0123456789abcdef0123456789abcdef0123456789abcdef0123456789abcdef"

/-- A cgroup line embedding `hex64W`. -/
def lineW : String :=
  "0::/kubepods/burstable/podX/crio-0123456789abcdef0123456789abcdef0123456789abcdef0123456789abcdef.scope"

/-- An environment for dynamic resolution: peer pid 42, whose cgroup
file contains `lineW`, and an upstream that reports the container
`hex64W` in pod sandbox `sw`. -/
def envW8 : Env := ⟨some (some 42),
  fun pid => if pid = 42 then some [lineW] else none,
  fun f => if f.id = hex64W then .ok [⟨hex64W, "sw"⟩] else .ok []⟩

/-! ## Claims -/

/-- C1: the claim says every call whose full method name begins with
`/runtime.v1.ImageService/` is rejected by the PodScoped policy with
permission-denied before the handler runs.  The code does the opposite:
the PodScoped interceptor passes such calls straight to the handler, so
the upstream image service is invoked.  This theorem evaluates the
interceptor at the failing input `/runtime.v1.ImageService/ListImages`:
the result is exactly the handler's result, for every environment,
policy configuration, request and handler. -/
theorem C1_podscoped_forwards_imageservice :
    ∀ (env : Env) (p : PodScopedPolicy) (req : CRIRequest)
      (handler : CRIRequest → Except GoError CRIResponse),
      podScopedUnaryInterceptor env p "/runtime.v1.ImageService/ListImages" req handler
        = handler req := by
  intro env p req handler
  rfl

/-- C2 counterexample: under the PodScoped policy a `RunPodSandbox` call
reaches the proxy handler, which returns a plain (non-status) error; its
gRPC code is `Unknown`, not `PermissionDenied`, refuting the claim that
the caller always receives a permission-denied error. -/
theorem C2_counterexample :
    applyPolicy env0 (.podScoped ⟨"s", false⟩) runPodSandboxMethod .runPodSandbox
        (serverRunPodSandbox upstream0)
      = .error (.plainErr "RunPodSandbox is disabled by cri-lite for security reasons")
    ∧ grpcCodeOf (.plainErr "RunPodSandbox is disabled by cri-lite for security reasons")
        ≠ GrpcCode.permissionDenied := by
  exact ⟨by decide, by decide⟩

/-- C2 (amended): for every environment and upstream implementation, a
`RunPodSandbox` call returns an error under every configured policy, and
the result never depends on the upstream (the method is never forwarded).
The error is permission-denied when an interceptor (ReadOnly,
ImageManagement) rejects the method, but a call that reaches the handler
(e.g. under PodScoped) is refused with a plain error surfaced as code
`Unknown`, not permission-denied. -/
theorem C2_runPodSandbox_never_forwarded :
    ∀ (env : Env) (u : CRIRequest → Except GoError CRIResponse),
      (∀ pol : PolicyKind, ∃ e,
        applyPolicy env pol runPodSandboxMethod .runPodSandbox (serverRunPodSandbox u)
          = .error e)
      ∧ (∀ (pol : PolicyKind) (u' : CRIRequest → Except GoError CRIResponse),
          applyPolicy env pol runPodSandboxMethod .runPodSandbox (serverRunPodSandbox u')
            = applyPolicy env pol runPodSandboxMethod .runPodSandbox (serverRunPodSandbox u))
      ∧ (applyPolicy env .readOnly runPodSandboxMethod .runPodSandbox (serverRunPodSandbox u)
          = .error (.statusErr .permissionDenied
              (errMethodNotAllowed ++ ": " ++ runPodSandboxMethod)))
      ∧ (applyPolicy env .imageManagement runPodSandboxMethod .runPodSandbox
            (serverRunPodSandbox u)
          = .error (.statusErr .permissionDenied
              (errMethodNotAllowed ++ ": " ++ runPodSandboxMethod)))
      ∧ (∀ S : String,
          applyPolicy env (.podScoped ⟨S, false⟩) runPodSandboxMethod .runPodSandbox
              (serverRunPodSandbox u)
            = .error (.plainErr "RunPodSandbox is disabled by cri-lite for security reasons")) := by
  intro env u
  have hpod : ∀ (p : PodScopedPolicy) (h : CRIRequest → Except GoError CRIResponse),
      podScopedUnaryInterceptor env p runPodSandboxMethod .runPodSandbox h
        = match resolvePodSandboxID env p with
          | .error e => .error e
          | .ok S =>
            match h .runPodSandbox with
            | .error e => .error e
            | .ok resp => .ok (rewriteResponse S resp) := by
    intro p h
    rfl
  refine ⟨?_, ?_, rfl, rfl, ?_⟩
  · intro pol
    cases pol with
    | readOnly => exact ⟨_, rfl⟩
    | imageManagement => exact ⟨_, rfl⟩
    | podScoped p =>
      show ∃ e, podScopedUnaryInterceptor env p runPodSandboxMethod .runPodSandbox
        (serverRunPodSandbox u) = .error e
      rw [hpod]
      rcases hres : resolvePodSandboxID env p with e | S
      · exact ⟨e, rfl⟩
      · exact ⟨_, rfl⟩
  · intro pol u'
    cases pol with
    | readOnly => rfl
    | imageManagement => rfl
    | podScoped p =>
      show podScopedUnaryInterceptor env p runPodSandboxMethod .runPodSandbox
          (serverRunPodSandbox u')
        = podScopedUnaryInterceptor env p runPodSandboxMethod .runPodSandbox
          (serverRunPodSandbox u)
      rw [hpod, hpod]
      rfl
  · intro S
    show podScopedUnaryInterceptor env ⟨S, false⟩ runPodSandboxMethod .runPodSandbox
        (serverRunPodSandbox u)
      = .error (.plainErr "RunPodSandbox is disabled by cri-lite for security reasons")
    rw [hpod]
    rfl

/-- C3: the claim includes `Exec` among the request types whose
`ContainerId` is resolved upstream and checked against the sandbox.  The
`verifyRequest` type switch has no `*runtimeapi.ExecRequest` case, so an
`Exec` request for a container that the upstream runtime reports in a
*different* pod sandbox is forwarded without any containment check: with
upstream knowing container `c2` in sandbox `other`, an `Exec` for `c2`
under a policy scoped to `sandbox` passes verification and reaches the
handler. -/
theorem C3_exec_forwarded_unchecked :
    envC3.runtime ⟨"c2", ""⟩ = .ok [⟨"c2", "other"⟩]
    ∧ ("other" : String) ≠ "sandbox"
    ∧ verifyRequest envC3 (.exec "c2") "sandbox" = .ok (.exec "c2")
    ∧ podScopedUnaryInterceptor envC3 ⟨"sandbox", false⟩
        "/runtime.v1.RuntimeService/Exec" (.exec "c2")
        (fun _ => .ok .otherResp) = .ok .otherResp := by
  exact ⟨by decide, by decide, by decide, by decide⟩

/-- C4 counterexample: a `PodSandboxStats` request whose `PodSandboxId`
differs from the policy's sandbox is *not* rejected: `verifyRequest` has
no case for it, so the request passes verification unchanged and is
forwarded to the handler, refuting "rejects with permission-denied
otherwise" for the `PodSandboxStats` request type. -/
theorem C4_counterexample :
    ("other" : String) ≠ "sandbox"
    ∧ verifyRequest env0 (.podSandboxStats "other") "sandbox"
        = .ok (.podSandboxStats "other")
    ∧ podScopedUnaryInterceptor env0 ⟨"sandbox", false⟩
        "/runtime.v1.RuntimeService/PodSandboxStats" (.podSandboxStats "other")
        (fun _ => .ok .otherResp) = .ok .otherResp := by
  exact ⟨by decide, by decide, by decide⟩

/-- C4 (amended): `StopPodSandbox`, `RemovePodSandbox`, `PodSandboxStatus`
and `UpdatePodSandboxResources` requests are forwarded iff their
`PodSandboxId` equals the resolved sandbox id, rejected with
permission-denied otherwise.  `PodSandboxStats` requests are forwarded
with no check at all.  `PortForward` feeds its `PodSandboxId` into the
container-belongs-to-pod helper: it is forwarded iff the upstream
`ListContainers`-by-id lookup of that value returns exactly one container
whose `pod_sandbox_id` equals the sandbox id, and rejected with
permission-denied otherwise — not a plain equality check. -/
theorem C4_amended_sandbox_id_checks :
    (∀ (env : Env) (S sid : String),
      verifyRequest env (.stopPodSandbox sid) S =
        if sid = S then .ok (.stopPodSandbox sid)
        else .error (.statusErr .permissionDenied
          (errMethodNotAllowed ++ ": StopPodSandboxRequest.PodSandboxId does not match")))
    ∧ (∀ (env : Env) (S sid : String),
      verifyRequest env (.removePodSandbox sid) S =
        if sid = S then .ok (.removePodSandbox sid)
        else .error (.statusErr .permissionDenied
          (errMethodNotAllowed ++ ": RemovePodSandboxRequest.PodSandboxId does not match")))
    ∧ (∀ (env : Env) (S sid : String),
      verifyRequest env (.podSandboxStatus sid) S =
        if sid = S then .ok (.podSandboxStatus sid)
        else .error (.statusErr .permissionDenied
          (errMethodNotAllowed ++ ": PodSandboxStatusRequest.PodSandboxId does not match")))
    ∧ (∀ (env : Env) (S sid : String),
      verifyRequest env (.updatePodSandboxResources sid) S =
        if sid = S then .ok (.updatePodSandboxResources sid)
        else .error (.statusErr .permissionDenied
          (errMethodNotAllowed
            ++ ": UpdatePodSandboxResourcesRequest.PodSandboxId does not match")))
    ∧ (∀ (env : Env) (S sid : String),
      verifyRequest env (.podSandboxStats sid) S = .ok (.podSandboxStats sid))
    ∧ (∀ (env : Env) (S sid : String) (c : Container),
      env.runtime ⟨sid, ""⟩ = .ok [c] → c.podSandboxId = S →
      verifyRequest env (.portForward sid) S = .ok (.portForward sid))
    ∧ (∀ (env : Env) (S sid : String) (c : Container),
      env.runtime ⟨sid, ""⟩ = .ok [c] → c.podSandboxId ≠ S →
      ∃ msg, verifyRequest env (.portForward sid) S
        = .error (.statusErr .permissionDenied msg))
    ∧ (∀ (env : Env) (S sid : String) (cs : List Container),
      env.runtime ⟨sid, ""⟩ = .ok cs → cs.length ≠ 1 →
      ∃ msg, verifyRequest env (.portForward sid) S
        = .error (.statusErr .permissionDenied msg)) := by
  refine ⟨?_, ?_, ?_, ?_, ?_, ?_, ?_, ?_⟩
  · intro env S sid
    by_cases h : sid = S <;>
      simp [verifyRequest, verifyPodSandboxIDMatch, h, Except.map] <;> decide
  · intro env S sid
    by_cases h : sid = S <;>
      simp [verifyRequest, verifyPodSandboxIDMatch, h, Except.map] <;> decide
  · intro env S sid
    by_cases h : sid = S <;>
      simp [verifyRequest, verifyPodSandboxIDMatch, h, Except.map] <;> decide
  · intro env S sid
    by_cases h : sid = S <;>
      simp [verifyRequest, verifyPodSandboxIDMatch, h, Except.map] <;> decide
  · intro env S sid
    rfl
  · intro env S sid c hrt hpod
    simp [verifyRequest, verifyContainerIDBelongsToPod, verifyContainerPodSandboxID,
      getPodSandboxIDFromContainerID, hrt, hpod, Except.map]
  · intro env S sid c hrt hpod
    refine ⟨errMethodNotAllowed ++ ": " ++ renderErr (.statusErr .permissionDenied
      (errMethodNotAllowed ++ ": container " ++ sid ++ " does not belong to pod sandbox "
        ++ S)), ?_⟩
    simp [verifyRequest, verifyContainerIDBelongsToPod, verifyContainerPodSandboxID,
      getPodSandboxIDFromContainerID, hrt, hpod, Except.map]
  · intro env S sid cs hrt hlen
    match cs, hlen with
    | [], _ =>
      refine ⟨errMethodNotAllowed ++ ": "
        ++ ("failed to get pod sandbox ID from container ID: "
          ++ ("unexpected number of containers: expected 1, got "
            ++ toString (List.length ([] : List Container)))), ?_⟩
      simp [verifyRequest, verifyContainerIDBelongsToPod, verifyContainerPodSandboxID,
        getPodSandboxIDFromContainerID, hrt, Except.map, renderErr]
    | c1 :: c2 :: tl, _ =>
      refine ⟨errMethodNotAllowed ++ ": "
        ++ ("failed to get pod sandbox ID from container ID: "
          ++ ("unexpected number of containers: expected 1, got "
            ++ toString (List.length (c1 :: c2 :: tl)))), ?_⟩
      simp [verifyRequest, verifyContainerIDBelongsToPod, verifyContainerPodSandboxID,
        getPodSandboxIDFromContainerID, hrt, Except.map, renderErr]
    | [c], h => exact absurd rfl h

/-- Witness for C4 (amended): the hypothesis-bearing conjuncts applied at
concrete inputs. -/
theorem C4_witness :
    verifyRequest envPF (.portForward "psid") "S1" = .ok (.portForward "psid")
    ∧ (∃ msg, verifyRequest envPF (.portForward "psid") "S2"
        = .error (.statusErr .permissionDenied msg))
    ∧ (∃ msg, verifyRequest envPF (.portForward "nope") "S1"
        = .error (.statusErr .permissionDenied msg)) :=
  ⟨C4_amended_sandbox_id_checks.2.2.2.2.2.1 envPF "S1" "psid" ⟨"psid", "S1"⟩
      (by decide) (by decide),
   C4_amended_sandbox_id_checks.2.2.2.2.2.2.1 envPF "S2" "psid" ⟨"psid", "S1"⟩
      (by decide) (by decide),
   C4_amended_sandbox_id_checks.2.2.2.2.2.2.2 envPF "S1" "nope" []
      (by decide) (by decide)⟩

/-- C10 counterexample: for a connection that is not a local UNIX stream
socket the handshake succeeds, but an authentication info *is* attached
(`&ucredAuthInfo{ucred: nil}`), refuting "attaches no peer identity to
the connection". -/
theorem C10_counterexample :
    serverHandshake .tcpConn = .ok (some { ucred := none })
    ∧ (some ({ ucred := none } : UcredAuthInfo) ≠ (none : Option UcredAuthInfo)) := by
  exact ⟨rfl, by decide⟩

/-- C10 (amended): for a non-local connection the server handshake
succeeds without error but attaches an authentication info whose `ucred`
pointer is nil; reading the peer PID from it dereferences the nil
pointer (modelled as `none`), so no PID value is obtainable. -/
theorem C10_amended_nonlocal_handshake :
    serverHandshake .tcpConn = .ok (some { ucred := none })
    ∧ UcredAuthInfo.getPID { ucred := none } = none := by
  exact ⟨rfl, rfl⟩

/-- C5 counterexample: the PodScoped interceptor returns a
`ListPodSandboxStats` response that still contains an element whose
`attributes.id` is `other`, under a policy scoped to `sandbox`: the
response-rewrite step does not touch `ListPodSandboxStatsResponse`, so
stats of foreign sandboxes are *not* dropped when the upstream ignores
the tightened filter. -/
theorem C5_counterexample :
    podScopedUnaryInterceptor env0 ⟨"sandbox", false⟩
        "/runtime.v1.RuntimeService/ListPodSandboxStats"
        (.listPodSandboxStats ⟨none⟩) handlerC5
      = .ok (.listPodSandboxStats statsOther)
    ∧ (⟨some ⟨"other"⟩⟩ : PodSandboxStats) ∈ statsOther
    ∧ ("other" : String) ≠ "sandbox" := by
  exact ⟨by decide, by decide, by decide⟩

/-- C5 (amended): for ListPodSandboxStats the PodScoped policy only
tightens the request filter; the response is returned to the caller
unchanged — no element is dropped, so response containment holds only if
the upstream honors the filter.  First conjunct: the response rewrite is
the identity on `ListPodSandboxStatsResponse`.  Second conjunct: a
successfully verified call returns exactly the handler's stats list. -/
theorem C5_amended_no_response_filtering :
    (∀ (S : String) (st : List PodSandboxStats),
      rewriteResponse S (.listPodSandboxStats st) = .listPodSandboxStats st)
    ∧ ∀ (env : Env) (p : PodScopedPolicy) (m : String) (req req2 : CRIRequest)
        (handler : CRIRequest → Except GoError CRIResponse) (S : String)
        (st : List PodSandboxStats),
        strStartsWith "/runtime.v1.ImageService/" m = false →
        strStartsWith "/runtime.v1.RuntimeService/" m = true →
        resolvePodSandboxID env p = .ok S →
        verifyRequest env req S = .ok req2 →
        handler req2 = .ok (.listPodSandboxStats st) →
        podScopedUnaryInterceptor env p m req handler
          = .ok (.listPodSandboxStats st) := by
  constructor
  · intro S st
    rfl
  · intro env p m req req2 handler S st himg hrt hres hver hhand
    simp [podScopedUnaryInterceptor, himg, hrt, hres, hver, hhand, rewriteResponse]

/-- Witness for C5 (amended): a concrete no-filter request whose rewrite
installs `filter.Id = s`, with an upstream that nevertheless answers with
a foreign sandbox's stats; the response reaches the caller unchanged. -/
theorem C5_witness :
    podScopedUnaryInterceptor env0 ⟨"s", false⟩
        "/runtime.v1.RuntimeService/ListPodSandboxStats"
        (.listPodSandboxStats ⟨none⟩) handlerC5
      = .ok (.listPodSandboxStats statsOther) :=
  C5_amended_no_response_filtering.2 env0 ⟨"s", false⟩
    "/runtime.v1.RuntimeService/ListPodSandboxStats"
    (.listPodSandboxStats ⟨none⟩) (.listPodSandboxStats ⟨some ⟨"s"⟩⟩)
    handlerC5 "s" statsOther
    (by decide) (by decide) (by decide) (by decide) (by decide)

/-- C6: every ListContainers response returned by the PodScoped
interceptor with resolved sandbox id `S` contains only containers with
`pod_sandbox_id = S`, and the returned list is exactly the filter of the
handler's (upstream) list — foreign containers are dropped even if the
upstream ignored the tightened filter, and the relative order of the
retained elements equals their upstream order (the result is a sublist
of the upstream response). -/
theorem C6_listcontainers_response_containment :
    ∀ (env : Env) (p : PodScopedPolicy) (m : String) (req : CRIRequest)
      (handler : CRIRequest → Except GoError CRIResponse) (S : String)
      (cs' : List Container),
      strStartsWith "/runtime.v1.ImageService/" m = false →
      resolvePodSandboxID env p = .ok S →
      podScopedUnaryInterceptor env p m req handler = .ok (.listContainers cs') →
      (∀ c ∈ cs', c.podSandboxId = S)
      ∧ ∃ (req2 : CRIRequest) (cs : List Container),
          verifyRequest env req S = .ok req2
          ∧ handler req2 = .ok (.listContainers cs)
          ∧ cs' = cs.filter (fun c => c.podSandboxId == S)
          ∧ cs'.Sublist cs := by
  intro env p m req handler S cs' himg hres hok
  by_cases hrt : strStartsWith "/runtime.v1.RuntimeService/" m = true
  · unfold podScopedUnaryInterceptor at hok
    simp only [himg, hrt, hres, Bool.false_eq_true, if_false, not_true_eq_false] at hok
    rcases hver : verifyRequest env req S with e | req2 <;> rw [hver] at hok <;>
      dsimp only at hok
    · simp at hok
    · rcases hhand : handler req2 with e | resp <;> rw [hhand] at hok <;>
        dsimp only at hok
      · simp at hok
      · cases resp with
        | listContainers cs =>
          simp only [rewriteResponse, Except.ok.injEq, CRIResponse.listContainers.injEq] at hok
          subst hok
          refine ⟨?_, req2, cs, rfl, hhand, rfl, List.filter_sublist cs⟩
          intro c hc
          have := List.of_mem_filter hc
          exact eq_of_beq this
        | listPodSandboxStats st =>
          simp [rewriteResponse] at hok
        | otherResp =>
          simp [rewriteResponse] at hok
  · unfold podScopedUnaryInterceptor at hok
    simp [himg, hrt] at hok

/-- Witness for C6: a no-filter ListContainers call under sandbox `s`;
the upstream returns containers of sandboxes `s` and `t`; the caller
receives exactly the `s` container. -/
theorem C6_witness :
    podScopedUnaryInterceptor env0 ⟨"s", false⟩
        "/runtime.v1.RuntimeService/ListContainers"
        (.listContainers ⟨none⟩) handlerC6
      = .ok (.listContainers [⟨"c1", "s"⟩])
    ∧ ((∀ c ∈ ([⟨"c1", "s"⟩] : List Container), c.podSandboxId = "s")
      ∧ ∃ (req2 : CRIRequest) (cs : List Container),
          verifyRequest env0 (.listContainers ⟨none⟩) "s" = .ok req2
          ∧ handlerC6 req2 = .ok (.listContainers cs)
          ∧ [(⟨"c1", "s"⟩ : Container)] = cs.filter (fun c => c.podSandboxId == "s")
          ∧ ([(⟨"c1", "s"⟩ : Container)]).Sublist cs) :=
  ⟨by decide,
   C6_listcontainers_response_containment env0 ⟨"s", false⟩
     "/runtime.v1.RuntimeService/ListContainers" (.listContainers ⟨none⟩)
     handlerC6 "s" [⟨"c1", "s"⟩] (by decide) (by decide) (by decide)⟩

/-- C7: filter tightening for the three list request types.  With no
filter, a filter naming the sandbox is installed (`PodSandboxId` for
ListContainers / ListContainerStats, `Id` for ListPodSandboxStats).
With a filter whose sandbox field is non-empty and different, the call is
rejected with permission-denied.  Otherwise the sandbox field is
overwritten to the resolved id (other filter fields preserved) and the
request passes verification. -/
theorem C7_list_filter_tightening :
    ∀ (S : String),
      (verifyListContainersRequest ⟨none⟩ S = .ok ⟨some ⟨"", S⟩⟩)
      ∧ (∀ f : ContainerFilter, f.podSandboxId ≠ "" → f.podSandboxId ≠ S →
          verifyListContainersRequest ⟨some f⟩ S
            = .error (.statusErr .permissionDenied (errMethodNotAllowed
                ++ ": ListContainersRequest.Filter.PodSandboxId does not match")))
      ∧ (∀ f : ContainerFilter, f.podSandboxId = "" ∨ f.podSandboxId = S →
          verifyListContainersRequest ⟨some f⟩ S
            = .ok ⟨some { f with podSandboxId := S }⟩)
      ∧ (verifyListContainerStatsRequest ⟨none⟩ S = .ok ⟨some ⟨"", S⟩⟩)
      ∧ (∀ f : ContainerStatsFilter, f.podSandboxId ≠ "" → f.podSandboxId ≠ S →
          verifyListContainerStatsRequest ⟨some f⟩ S
            = .error (.statusErr .permissionDenied (errMethodNotAllowed
                ++ ": ListContainerStatsRequest.Filter.PodSandboxId does not match")))
      ∧ (∀ f : ContainerStatsFilter, f.podSandboxId = "" ∨ f.podSandboxId = S →
          verifyListContainerStatsRequest ⟨some f⟩ S
            = .ok ⟨some { f with podSandboxId := S }⟩)
      ∧ (verifyListPodSandboxStatsRequest ⟨none⟩ S = .ok ⟨some ⟨S⟩⟩)
      ∧ (∀ f : PodSandboxStatsFilter, f.id ≠ "" → f.id ≠ S →
          verifyListPodSandboxStatsRequest ⟨some f⟩ S
            = .error (.statusErr .permissionDenied (errMethodNotAllowed
                ++ ": ListPodSandboxStatsRequest.Filter.Id does not match")))
      ∧ (∀ f : PodSandboxStatsFilter, f.id = "" ∨ f.id = S →
          verifyListPodSandboxStatsRequest ⟨some f⟩ S
            = .ok ⟨some { f with id := S }⟩) := by
  intro S
  refine ⟨rfl, ?_, ?_, rfl, ?_, ?_, rfl, ?_, ?_⟩
  · intro f h1 h2
    simp [verifyListContainersRequest, h1, h2]
  · intro f h
    rcases h with h | h <;> simp [verifyListContainersRequest, h]
  · intro f h1 h2
    simp [verifyListContainerStatsRequest, h1, h2]
  · intro f h
    rcases h with h | h <;> simp [verifyListContainerStatsRequest, h]
  · intro f h1 h2
    simp [verifyListPodSandboxStatsRequest, h1, h2]
  · intro f h
    rcases h with h | h <;> simp [verifyListPodSandboxStatsRequest, h]

/-- Witness for C7: the hypothesis-bearing conjuncts at concrete
filters. -/
theorem C7_witness :
    verifyListContainersRequest ⟨some ⟨"cid", "other"⟩⟩ "s"
      = .error (.statusErr .permissionDenied (errMethodNotAllowed
          ++ ": ListContainersRequest.Filter.PodSandboxId does not match"))
    ∧ verifyListContainersRequest ⟨some ⟨"cid", ""⟩⟩ "s" = .ok ⟨some ⟨"cid", "s"⟩⟩
    ∧ verifyListContainerStatsRequest ⟨some ⟨"cid", "other"⟩⟩ "s"
      = .error (.statusErr .permissionDenied (errMethodNotAllowed
          ++ ": ListContainerStatsRequest.Filter.PodSandboxId does not match"))
    ∧ verifyListContainerStatsRequest ⟨some ⟨"cid", "s"⟩⟩ "s" = .ok ⟨some ⟨"cid", "s"⟩⟩
    ∧ verifyListPodSandboxStatsRequest ⟨some ⟨"other"⟩⟩ "s"
      = .error (.statusErr .permissionDenied (errMethodNotAllowed
          ++ ": ListPodSandboxStatsRequest.Filter.Id does not match"))
    ∧ verifyListPodSandboxStatsRequest ⟨some ⟨""⟩⟩ "s" = .ok ⟨some ⟨"s"⟩⟩ :=
  ⟨(C7_list_filter_tightening "s").2.1 ⟨"cid", "other"⟩ (by decide) (by decide),
   (C7_list_filter_tightening "s").2.2.1 ⟨"cid", ""⟩ (Or.inl (by decide)),
   (C7_list_filter_tightening "s").2.2.2.2.1 ⟨"cid", "other"⟩ (by decide) (by decide),
   (C7_list_filter_tightening "s").2.2.2.2.2.1 ⟨"cid", "s"⟩ (Or.inr (by decide)),
   (C7_list_filter_tightening "s").2.2.2.2.2.2.2.1 ⟨"other"⟩ (by decide) (by decide),
   (C7_list_filter_tightening "s").2.2.2.2.2.2.2.2 ⟨""⟩ (Or.inl (by decide))⟩

/-- Helper: a successful `firstHex64` match is 64 characters long and
all lowercase hex. -/
theorem firstHex64_sound : ∀ (cs l : List Char), firstHex64 cs = some l →
    l.length = 64 ∧ l.all isHexLower = true := by
  intro cs
  induction cs with
  | nil =>
    intro l h
    simp [firstHex64] at h
  | cons c tl ih =>
    intro l h
    rw [firstHex64] at h
    split at h
    · rename_i hcond
      cases h
      refine ⟨?_, hcond.2⟩
      rw [List.length_take]
      omega
    · exact ih l h

/-- Helper: a successful cgroup scan yields a 64-character lowercase-hex
container id. -/
theorem firstContainerID_sound : ∀ (lines : List String) (cid : String),
    firstContainerID lines = some cid →
    cid.length = 64 ∧ cid.data.all isHexLower = true := by
  intro lines
  induction lines with
  | nil =>
    intro cid h
    simp [firstContainerID] at h
  | cons l ls ih =>
    intro cid h
    rw [firstContainerID] at h
    rcases hl : lineContainerID l with _ | c <;> rw [hl] at h
    · exact ih cid h
    · cases h
      unfold lineContainerID at hl
      rcases hh : firstHex64 l.data with _ | hx <;> rw [hh] at hl <;>
        dsimp only [Option.map] at hl
      · exact Option.noConfusion hl
      · cases hl
        obtain ⟨h64, hall⟩ := firstHex64_sound _ _ hh
        exact ⟨h64, hall⟩

/-- C8: dynamic PodScoped resolution.  (1) When the pid's cgroup file is
readable and its scan yields candidate `cid`, resolution proceeds by the
upstream container lookup of `cid`.  (2) The candidate is always a
64-character lowercase-hex string (the regex contract).  (3) When the
upstream `ListContainers`-by-id query returns exactly one container, its
`pod_sandbox_id` is returned as the sandbox id.  (4) When the query
returns any other number of containers, resolution fails with the
unexpected-number-of-containers error.  (5) Every resolver failure is
surfaced by the interceptor as an internal-class (`codes.Internal`)
status error. -/
theorem C8_dynamic_resolution :
    (∀ (env : Env) (pid : Int) (lines : List String) (cid : String),
      env.proc pid = some lines → firstContainerID lines = some cid →
      getPodSandboxIDFromPID env pid = getPodSandboxIDFromContainerID env cid)
    ∧ (∀ (lines : List String) (cid : String),
      firstContainerID lines = some cid →
      cid.length = 64 ∧ cid.data.all isHexLower = true)
    ∧ (∀ (env : Env) (cid : String) (c : Container),
      env.runtime ⟨cid, ""⟩ = .ok [c] →
      getPodSandboxIDFromContainerID env cid = .ok c.podSandboxId)
    ∧ (∀ (env : Env) (cid : String) (cs : List Container),
      env.runtime ⟨cid, ""⟩ = .ok cs → cs.length ≠ 1 →
      getPodSandboxIDFromContainerID env cid
        = .error (.plainErr ("unexpected number of containers: expected 1, got "
            ++ toString cs.length)))
    ∧ (∀ (env : Env) (p : PodScopedPolicy) (pid : Int) (e : GoError),
      p.podSandboxFromCallerPID = true → env.peer = some (some pid) →
      getPodSandboxIDFromPID env pid = .error e →
      resolvePodSandboxID env p
        = .error (.statusErr .internal
            ("failed to get pod sandbox ID from PID: " ++ renderErr e))) := by
  refine ⟨?_, firstContainerID_sound, ?_, ?_, ?_⟩
  · intro env pid lines cid hproc hfind
    unfold getPodSandboxIDFromPID
    rw [hproc]
    dsimp only
    rw [hfind]
  · intro env cid c hrt
    simp [getPodSandboxIDFromContainerID, hrt]
  · intro env cid cs hrt hlen
    match cs, hlen with
    | [], _ =>
      simp [getPodSandboxIDFromContainerID, hrt]
    | c1 :: c2 :: tl, _ =>
      simp [getPodSandboxIDFromContainerID, hrt]
    | [c], h => exact absurd rfl h
  · intro env p pid e hdyn hpeer herr
    simp [resolvePodSandboxID, hdyn, hpeer, herr]

/-- Witness for C8: pid 42's cgroup file holds a line embedding a 64-hex
id; the upstream reports that container in sandbox `sw`; resolution
returns `sw`. -/
theorem C8_witness :
    getPodSandboxIDFromPID envW8 42 = getPodSandboxIDFromContainerID envW8 hex64W
    ∧ getPodSandboxIDFromContainerID envW8 hex64W = .ok "sw"
    ∧ (hex64W.length = 64 ∧ hex64W.data.all isHexLower = true) :=
  ⟨C8_dynamic_resolution.1 envW8 42 [lineW] hex64W (by decide) (by decide),
   C8_dynamic_resolution.2.2.1 envW8 hex64W ⟨hex64W, "sw"⟩ (by decide),
   C8_dynamic_resolution.2.1 [lineW] hex64W (by decide)⟩

/-- C9: the ReadOnly policy admits exactly the thirteen listed methods
(ten RuntimeService, three ImageService): an admitted call is forwarded
with the request unmodified; any other method is rejected with a
permission-denied error whose message names the rejected method, without
invoking the handler (the rejection result does not depend on the
handler). -/
theorem C9_readonly_allowlist :
    ∀ (m : String) (req : CRIRequest)
      (handler : CRIRequest → Except GoError CRIResponse),
      (m ∈ [ "/runtime.v1.RuntimeService/Version"
           , "/runtime.v1.RuntimeService/Status"
           , "/runtime.v1.RuntimeService/ListContainers"
           , "/runtime.v1.RuntimeService/ContainerStatus"
           , "/runtime.v1.RuntimeService/ListPodSandbox"
           , "/runtime.v1.RuntimeService/PodSandboxStatus"
           , "/runtime.v1.RuntimeService/ContainerStats"
           , "/runtime.v1.RuntimeService/ListContainerStats"
           , "/runtime.v1.RuntimeService/PodSandboxStats"
           , "/runtime.v1.RuntimeService/ListPodSandboxStats"
           , "/runtime.v1.ImageService/ListImages"
           , "/runtime.v1.ImageService/ImageStatus"
           , "/runtime.v1.ImageService/ImageFsInfo" ] →
        readOnlyUnaryInterceptor m req handler = handler req)
      ∧ (m ∉ [ "/runtime.v1.RuntimeService/Version"
             , "/runtime.v1.RuntimeService/Status"
             , "/runtime.v1.RuntimeService/ListContainers"
             , "/runtime.v1.RuntimeService/ContainerStatus"
             , "/runtime.v1.RuntimeService/ListPodSandbox"
             , "/runtime.v1.RuntimeService/PodSandboxStatus"
             , "/runtime.v1.RuntimeService/ContainerStats"
             , "/runtime.v1.RuntimeService/ListContainerStats"
             , "/runtime.v1.RuntimeService/PodSandboxStats"
             , "/runtime.v1.RuntimeService/ListPodSandboxStats"
             , "/runtime.v1.ImageService/ListImages"
             , "/runtime.v1.ImageService/ImageStatus"
             , "/runtime.v1.ImageService/ImageFsInfo" ] →
        readOnlyUnaryInterceptor m req handler
          = .error (.statusErr .permissionDenied
              (errMethodNotAllowed ++ ": " ++ m))) := by
  intro m req handler
  constructor
  · intro hm
    have hmem : m ∈ readOnlyAllowedMethods := hm
    simp [readOnlyUnaryInterceptor, hmem]
  · intro hm
    have hmem : m ∉ readOnlyAllowedMethods := hm
    simp [readOnlyUnaryInterceptor, hmem]

/-- Witness for C9: an allowlisted method is forwarded unmodified; a
write method is rejected naming the method. -/
theorem C9_witness :
    readOnlyUnaryInterceptor "/runtime.v1.RuntimeService/ListContainers"
        (.listContainers ⟨none⟩) upstream0
      = upstream0 (.listContainers ⟨none⟩)
    ∧ readOnlyUnaryInterceptor "/runtime.v1.RuntimeService/StopContainer"
        (.stopContainer "c1") upstream0
      = .error (.statusErr .permissionDenied
          (errMethodNotAllowed ++ ": " ++ "/runtime.v1.RuntimeService/StopContainer")) :=
  ⟨(C9_readonly_allowlist "/runtime.v1.RuntimeService/ListContainers"
      (.listContainers ⟨none⟩) upstream0).1 (by decide),
   (C9_readonly_allowlist "/runtime.v1.RuntimeService/StopContainer"
      (.stopContainer "c1") upstream0).2 (by decide)⟩

end CriLite
